import Mathlib

/-!
Shallow embedding of `src/smartnixietube/SmartNixieTube.py`.

The Python module defines a class `SmartNixieTubeDisplay` with a nested
class `SmartNixieTube` (one physical tube).  Python strings are modelled
as `String`, Python `int` as `Int`, Python booleans as `Bool`.  A Python
statement that can `raise` is modelled as a function into
`Except PyError _`; the distinct `ValueError` messages of the source keep
the error sites apart.  The serial transport is abstracted to a Boolean
"port is open" flag plus an optional write-failure message, matching the
only two ways the transport influences control flow in `send_command`.

The method `set_display_number` is deliberately not embedded: its
digit-count guard is `int(log10(number)) + 1` computed in IEEE double
precision through the platform's `math.log10`, whose rounding near
powers of ten (for example at `999999999999999`, whose true logarithm
lies within half an ulp of `15.0`) decides between success and the
`'Not enough tubes'` error, so no exact-arithmetic definition is
faithful to it.
-/

/-- Exceptions raised by the Python source: `ValueError`, `TypeError`,
`ConnectionError` and `AssertionError`, each carrying its message. -/
inductive PyError where
  | valueError (msg : String)
  | typeError (msg : String)
  | connectionError (msg : String)
  | assertionError (msg : String)
deriving DecidableEq, Repr

/-- Does `needle` occur at the head of `haystack`?  Auxiliary for the
model of Python's substring test `needle in haystack`. -/
def leadsWith : List Char → List Char → Bool
  | [], _ => true
  | _ :: _, [] => false
  | a :: as, b :: bs => if a = b then leadsWith as bs else false

/-- Python's `needle in haystack` on strings is a contiguous-substring
test; this models it on the underlying character lists. -/
def occursIn : List Char → List Char → Bool
  | n, [] => n.isEmpty
  | n, b :: bs => leadsWith n (b :: bs) || occursIn n bs

/-- The literal `'-0123456789'` that the digit setter tests membership
against (line 55 of the source). -/
def digitAlphabet : String := "-0123456789"

/-- State of one tube: `SmartNixieTubeDisplay.SmartNixieTube`.  The digit
is a `String` because the Python attribute holds whatever string value
survived the setter (the setter's substring test lets multi-character
strings through). -/
structure SmartNixieTube where
  digit : String
  left_decimal_point : Bool
  right_decimal_point : Bool
  brightness : Int
  red : Int
  green : Int
  blue : Int
deriving DecidableEq, Repr

/-- The tube produced by `SmartNixieTube()` with all-default arguments
(`digit='-'`, decimal points `False`, brightness and RGB `0`). -/
def blankTube : SmartNixieTube :=
  { digit := "-", left_decimal_point := false, right_decimal_point := false,
    brightness := 0, red := 0, green := 0, blue := 0 }

namespace SmartNixieTube

/-- The `digit` property setter: `if value not in '-0123456789':
self.__digit = '-' else: self.__digit = value`.  Python's `in` on
strings is a substring test, modelled by `occursIn`. -/
def set_digit (t : SmartNixieTube) (value : String) : SmartNixieTube :=
  if occursIn value.data digitAlphabet.data then { t with digit := value }
  else { t with digit := "-" }

/-- The `left_decimal_point` setter.  The source raises `TypeError` for a
non-`bool` argument; in the typed model the argument is always `Bool`,
so the setter is total. -/
def set_left_decimal_point (t : SmartNixieTube) (value : Bool) : SmartNixieTube :=
  { t with left_decimal_point := value }

/-- The `right_decimal_point` setter (total for the same reason). -/
def set_right_decimal_point (t : SmartNixieTube) (value : Bool) : SmartNixieTube :=
  { t with right_decimal_point := value }

/-- The `brightness` setter: raises `ValueError` outside `0..255`. -/
def set_brightness (t : SmartNixieTube) (value : Int) : Except PyError SmartNixieTube :=
  if value < 0 ∨ value > 255 then .error (.valueError "Brightness must be between 0-255")
  else .ok { t with brightness := value }

/-- The `red` setter: raises `ValueError` outside `0..255`. -/
def set_red (t : SmartNixieTube) (value : Int) : Except PyError SmartNixieTube :=
  if value < 0 ∨ value > 255 then .error (.valueError "Red must be between 0-255")
  else .ok { t with red := value }

/-- The `green` setter: raises `ValueError` outside `0..255`. -/
def set_green (t : SmartNixieTube) (value : Int) : Except PyError SmartNixieTube :=
  if value < 0 ∨ value > 255 then .error (.valueError "Green must be between 0-255")
  else .ok { t with green := value }

/-- The `blue` setter: raises `ValueError` outside `0..255`. -/
def set_blue (t : SmartNixieTube) (value : Int) : Except PyError SmartNixieTube :=
  if value < 0 ∨ value > 255 then .error (.valueError "Blue must be between 0-255")
  else .ok { t with blue := value }

/-- The method `turn_off`: assigns `'-'`, `False`, `False`, `0`, `0`,
`0`, `0` through the setters; every one of those assignments passes its
own validation, so the composite is total and the result is the blank
tube regardless of the starting state. -/
def turn_off (_ : SmartNixieTube) : SmartNixieTube := blankTube

end SmartNixieTube

/-- Decimal digits of `n`, most significant first, rendered as
characters; fuel-based model of Python's `str(number)` for a
non-negative number.  `fuel` bounds the recursion depth: one division by
ten per step. -/
def toDigitsAux : Nat → Nat → List Char
  | 0, _ => []
  | fuel + 1, n =>
    if n < 10 then [Nat.digitChar n]
    else toDigitsAux fuel (n / 10) ++ [Nat.digitChar (n % 10)]

/-- Python's `str(number)` for a natural number (`str(0) = "0"`). -/
def pyStr (n : Nat) : String := String.mk (toDigitsAux (n + 1) n)

/-- Python's `str.zfill(width)`: left-pad with `'0'` to `width`
characters, returning the string unchanged when already long enough.
The sign-aware branch of `zfill` never triggers in the source (the
padded string is always the digits of a non-negative number). -/
def zfill (s : String) (width : Nat) : String :=
  String.mk (List.replicate (width - s.length) '0' ++ s.data)

namespace SmartNixieTube

/-- Static method `convert_digit_to_string_with_leading_zeros`:
`'%03d' % number`, i.e. decimal, zero-padded to width 3.  The source
only ever applies it to setter-validated values in `0..255`, so the
model uses the non-negative rendering (`Int.toNat`). -/
def convert_digit_to_string_with_leading_zeros (number : Int) : String :=
  zfill (pyStr number.toNat) 3

/-- Static method `convert_from_bool_to_yn`. -/
def convert_from_bool_to_yn (boolean : Bool) : String :=
  if boolean then "Y" else "N"

/-- Method `SmartNixieTube.generate_command_string`: the `'$'`-prefixed,
comma-separated rendering of one tube's state (source lines 152-162).
Note the leading `'$'` is produced here, by the tube itself. -/
def generate_command_string (t : SmartNixieTube) : String :=
  "$" ++
  t.digit ++ "," ++
  convert_from_bool_to_yn t.left_decimal_point ++ "," ++
  convert_from_bool_to_yn t.right_decimal_point ++ "," ++
  convert_digit_to_string_with_leading_zeros t.brightness ++ "," ++
  convert_digit_to_string_with_leading_zeros t.red ++ "," ++
  convert_digit_to_string_with_leading_zeros t.green ++ "," ++
  convert_digit_to_string_with_leading_zeros t.blue

end SmartNixieTube

/-- Modelled from the spec: the per-unit "fragment"
`DIGIT,LDP,RDP,BRIGHTNESS,RED,GREEN,BLUE` of spec sections 4.1 and 6 —
the tube's rendering without the leading `'$'`.  Introduced to state the
spec's claims about frame shape; compared against the source's
`generate_command_string` in the theorems. -/
def specFragment (t : SmartNixieTube) : String :=
  t.digit ++ "," ++
  SmartNixieTube.convert_from_bool_to_yn t.left_decimal_point ++ "," ++
  SmartNixieTube.convert_from_bool_to_yn t.right_decimal_point ++ "," ++
  SmartNixieTube.convert_digit_to_string_with_leading_zeros t.brightness ++ "," ++
  SmartNixieTube.convert_digit_to_string_with_leading_zeros t.red ++ "," ++
  SmartNixieTube.convert_digit_to_string_with_leading_zeros t.green ++ "," ++
  SmartNixieTube.convert_digit_to_string_with_leading_zeros t.blue

/-- State of a display: `SmartNixieTubeDisplay`.  The serial port itself
is an external resource; its influence on the modelled control flow (the
`isOpen` test and a possible write exception in `send_command`) is
passed to `send_command` as explicit arguments. -/
structure SmartNixieTubeDisplay where
  number_of_tubes_in_display : Nat
  tubes : List SmartNixieTube
  brightness : Int
  red : Int
  green : Int
  blue : Int
deriving DecidableEq, Repr

namespace SmartNixieTubeDisplay

/-- The display-level `brightness` setter: validates `0..255`, stores
the display value and writes it into every tube through the tube setter
(source loops `for i in range(number_of_tubes_in_display)`, which under
the construction invariant `tubes.length = number_of_tubes_in_display`
touches exactly the owned tubes, modelled as a map). -/
def set_brightness (d : SmartNixieTubeDisplay) (value : Int) :
    Except PyError SmartNixieTubeDisplay :=
  if value < 0 ∨ value > 255 then .error (.valueError "Brightness must be between 0-255")
  else .ok { d with brightness := value,
                    tubes := d.tubes.map fun t => { t with brightness := value } }

/-- The display-level `red` setter (same fan-out as `brightness`). -/
def set_red (d : SmartNixieTubeDisplay) (value : Int) :
    Except PyError SmartNixieTubeDisplay :=
  if value < 0 ∨ value > 255 then .error (.valueError "Red must be between 0-255")
  else .ok { d with red := value,
                    tubes := d.tubes.map fun t => { t with red := value } }

/-- The display-level `green` setter (same fan-out as `brightness`). -/
def set_green (d : SmartNixieTubeDisplay) (value : Int) :
    Except PyError SmartNixieTubeDisplay :=
  if value < 0 ∨ value > 255 then .error (.valueError "Green must be between 0-255")
  else .ok { d with green := value,
                    tubes := d.tubes.map fun t => { t with green := value } }

/-- The display-level `blue` setter (same fan-out as `brightness`). -/
def set_blue (d : SmartNixieTubeDisplay) (value : Int) :
    Except PyError SmartNixieTubeDisplay :=
  if value < 0 ∨ value > 255 then .error (.valueError "Blue must be between 0-255")
  else .ok { d with blue := value,
                    tubes := d.tubes.map fun t => { t with blue := value } }

end SmartNixieTubeDisplay

/-- The per-tube effect of `SmartNixieTubeDisplay.reset`: `tube.digit =
'-'` (through the digit setter, which keeps `'-'`), then brightness and
RGB to `0` (each passes its range check).  The decimal-point attributes
are not assigned. -/
def resetTube (t : SmartNixieTube) : SmartNixieTube :=
  { t with digit := "-", brightness := 0, red := 0, green := 0, blue := 0 }

namespace SmartNixieTubeDisplay

/-- Method `reset`: applies `resetTube` to every tube (source lines
295-301); the display-level brightness/RGB attributes are not touched. -/
def reset (d : SmartNixieTubeDisplay) : SmartNixieTubeDisplay :=
  { d with tubes := d.tubes.map resetTube }

/-- Method `SmartNixieTubeDisplay.generate_command_string` (source lines
303-318): starts from the empty string, prepends each tube's command
string in iteration order (`command_string = tube.generate_command_string()
+ command_string`), then appends the latch byte `'!'`. -/
def generate_command_string (d : SmartNixieTubeDisplay) : String :=
  (d.tubes.foldl (fun command_string tube =>
    tube.generate_command_string ++ command_string) "") ++ "!"

/-- Method `send_command` (source lines 339-351).  `portOpen` models
`self.port.isOpen()`; `writeFailure` models whether the flush/write
raises (carrying `str(e)`).  The returned value records the bytes
written: `some frame` after a successful write, `none` when the port
was not open — in that case the method falls through and returns
normally without writing or raising. -/
def send_command (d : SmartNixieTubeDisplay) (portOpen : Bool)
    (writeFailure : Option String) : Except PyError (Option String) :=
  if portOpen then
    match writeFailure with
    | some e => .error (.connectionError e)
    | none => .ok (some d.generate_command_string)
  else .ok none

/-- The constructor `SmartNixieTubeDisplay.__init__` up to (and not
including) the serial-port block: validates the tube count, builds
`number_of_tubes_in_display` blank tubes, then runs the four bulk
setters on the supplied defaults in source order.  The serial-port
block (which raises `AssertionError` when no port name is given or the
port cannot be opened) concerns only the external transport and is
abstracted away, as in `send_command`. -/
def make (number_of_tubes_in_display : Nat) (brightness red green blue : Int) :
    Except PyError SmartNixieTubeDisplay :=
  if number_of_tubes_in_display < 1 then
    .error (.valueError "number_of_tubes_in_display must be greater than 0")
  else do
    let d : SmartNixieTubeDisplay :=
      { number_of_tubes_in_display := number_of_tubes_in_display,
        tubes := List.replicate number_of_tubes_in_display blankTube,
        brightness := 0, red := 0, green := 0, blue := 0 }
    let d ← d.set_brightness brightness
    let d ← d.set_red red
    let d ← d.set_green green
    let d ← d.set_blue blue
    return d

end SmartNixieTubeDisplay

/-- Modelled from the spec: the concatenation
`"$" ++ fragment t₁ ++ "$" ++ fragment t₂ ++ ...` over a tube list,
used to state the spec's description of the assembled frame body. -/
def specFrameBody : List SmartNixieTube → String
  | [] => ""
  | t :: ts => "$" ++ specFragment t ++ specFrameBody ts

/-- A 3-tube display in the blank state (display-level values 0),
matching `SmartNixieTubeDisplay(3, port)` with default colours. -/
def sampleDisplay : SmartNixieTubeDisplay :=
  { number_of_tubes_in_display := 3, tubes := [blankTube, blankTube, blankTube],
    brightness := 0, red := 0, green := 0, blue := 0 }

/-- A lit tube used in concrete witnesses: digit `5`, brightness 128,
blue 255 (the example state of spec section 6). -/
def litTube : SmartNixieTube :=
  { digit := "5", left_decimal_point := false, right_decimal_point := false,
    brightness := 128, red := 0, green := 0, blue := 255 }

/-- A tube with a decimal point set and non-zero colours, used to watch
what `reset` leaves untouched. -/
def dottedTube : SmartNixieTube :=
  { digit := "7", left_decimal_point := true, right_decimal_point := false,
    brightness := 9, red := 8, green := 7, blue := 6 }

/-- A 2-tube display holding `litTube` then `blankTube`, the
configuration of the worked example in spec section 6. -/
def sampleDisplay2 : SmartNixieTubeDisplay :=
  { number_of_tubes_in_display := 2, tubes := [litTube, blankTube],
    brightness := 0, red := 0, green := 0, blue := 0 }

/-- A 1-tube display holding `dottedTube`. -/
def dottedDisplay : SmartNixieTubeDisplay :=
  { number_of_tubes_in_display := 1, tubes := [dottedTube],
    brightness := 0, red := 0, green := 0, blue := 0 }

/-- A tube state reachable through the public interface: the default
constructor (`SmartNixieTube()`), the property setters (a failing setter
raises and leaves the tube unchanged, so only the `ok` outcome produces
a new state) and `turn_off`.  The single-tube effects of the display
operations factor through these: the bulk setters assign through the
tube setters, `reset` assigns `'-'` and zeros through them, and
`set_display_number` assigns one-character strings through the digit
setter. -/
inductive ReachableTube : SmartNixieTube → Prop where
  | init : ReachableTube blankTube
  | set_digit {t : SmartNixieTube} (h : ReachableTube t) (value : String) :
      ReachableTube (t.set_digit value)
  | set_ldp {t : SmartNixieTube} (h : ReachableTube t) (value : Bool) :
      ReachableTube (t.set_left_decimal_point value)
  | set_rdp {t : SmartNixieTube} (h : ReachableTube t) (value : Bool) :
      ReachableTube (t.set_right_decimal_point value)
  | set_brightness {t t' : SmartNixieTube} (h : ReachableTube t) (value : Int)
      (hv : t.set_brightness value = .ok t') : ReachableTube t'
  | set_red {t t' : SmartNixieTube} (h : ReachableTube t) (value : Int)
      (hv : t.set_red value = .ok t') : ReachableTube t'
  | set_green {t t' : SmartNixieTube} (h : ReachableTube t) (value : Int)
      (hv : t.set_green value = .ok t') : ReachableTube t'
  | set_blue {t t' : SmartNixieTube} (h : ReachableTube t) (value : Int)
      (hv : t.set_blue value = .ok t') : ReachableTube t'
  | turn_off {t : SmartNixieTube} (h : ReachableTube t) : ReachableTube t.turn_off

/-- The per-field legality invariant the code actually maintains: the
numeric fields stay in `0..255` (the decimal points are `Bool` by
typing), and the digit is always a string that passed the substring
test — not necessarily a single character. -/
structure TubeInv (t : SmartNixieTube) : Prop where
  digit_sub : occursIn t.digit.data digitAlphabet.data = true
  brightness_lb : 0 ≤ t.brightness
  brightness_ub : t.brightness ≤ 255
  red_lb : 0 ≤ t.red
  red_ub : t.red ≤ 255
  green_lb : 0 ≤ t.green
  green_ub : t.green ≤ 255
  blue_lb : 0 ≤ t.blue
  blue_ub : t.blue ≤ 255

/-- Characterisation of `leadsWith`: `needle` leads `haystack` exactly
when `haystack` extends `needle` on the right. -/
theorem leadsWith_iff : ∀ n h : List Char, leadsWith n h = true ↔ ∃ r, h = n ++ r := by
  intro n
  induction n with
  | nil =>
    intro h
    simp [leadsWith]
  | cons a as ih =>
    intro h
    cases h with
    | nil =>
      simp [leadsWith]
    | cons b bs =>
      simp only [leadsWith, List.cons_append]
      constructor
      · intro hlw
        have hab : a = b := by
          by_contra hne
          rw [if_neg hne] at hlw
          exact Bool.false_ne_true hlw
        subst hab
        rw [if_pos rfl] at hlw
        rcases (ih bs).mp hlw with ⟨r, hr⟩
        exact ⟨r, by rw [hr]⟩
      · rintro ⟨r, hr⟩
        obtain ⟨hb, hbs⟩ := List.cons_eq_cons.mp hr
        subst hb
        rw [if_pos rfl]
        exact (ih bs).mpr ⟨r, hbs⟩

/-- Characterisation of `occursIn`: the modelled Python substring test
succeeds exactly when the needle is a contiguous substring. -/
theorem occursIn_iff : ∀ n h : List Char, occursIn n h = true ↔ ∃ l r, h = l ++ n ++ r := by
  intro n h
  induction h with
  | nil =>
    simp only [occursIn]
    constructor
    · intro he
      have hn : n = [] := by
        cases n with
        | nil => rfl
        | cons x xs => exact absurd he (by simp [List.isEmpty])
      exact ⟨[], [], by simp [hn]⟩
    · rintro ⟨l, r, hr⟩
      obtain ⟨h1, h2⟩ := List.append_eq_nil.mp hr.symm
      obtain ⟨h3, h4⟩ := List.append_eq_nil.mp h1
      simp [h4, List.isEmpty]
  | cons b bs ih =>
    simp only [occursIn, Bool.or_eq_true, leadsWith_iff, ih]
    constructor
    · rintro (⟨r, hr⟩ | ⟨l, r, hr⟩)
      · exact ⟨[], r, by simpa using hr⟩
      · exact ⟨b :: l, r, by rw [hr, List.cons_append, List.cons_append]⟩
    · rintro ⟨l, r, hr⟩
      cases l with
      | nil =>
        left
        exact ⟨r, by simpa using hr⟩
      | cons x xs =>
        right
        rw [List.cons_append, List.cons_append] at hr
        obtain ⟨hx, hbs⟩ := List.cons_eq_cons.mp hr
        exact ⟨xs, r, hbs⟩

/-- For a one-character needle the substring test degenerates to
membership. -/
theorem occursIn_singleton (c : Char) (h : List Char) :
    occursIn [c] h = true ↔ c ∈ h := by
  rw [occursIn_iff]
  constructor
  · rintro ⟨l, r, hr⟩
    subst hr
    simp
  · intro hc
    rcases List.append_of_mem hc with ⟨l, r, hr⟩
    exact ⟨l, r, by simpa using hr⟩

namespace SmartNixieTube

/-- What the digit setter stores, stated with the contiguous-substring
condition spelled out. -/
theorem set_digit_digit (t : SmartNixieTube) (value : String) :
    (t.set_digit value).digit =
      if occursIn value.data digitAlphabet.data then value else "-" := by
  unfold set_digit
  by_cases h : occursIn value.data digitAlphabet.data <;> simp [h]

/-- The other fields of a tube are untouched by the digit setter. -/
theorem set_digit_rest (t : SmartNixieTube) (value : String) :
    (t.set_digit value).left_decimal_point = t.left_decimal_point ∧
    (t.set_digit value).right_decimal_point = t.right_decimal_point ∧
    (t.set_digit value).brightness = t.brightness ∧
    (t.set_digit value).red = t.red ∧
    (t.set_digit value).green = t.green ∧
    (t.set_digit value).blue = t.blue := by
  unfold set_digit
  by_cases h : occursIn value.data digitAlphabet.data <;> simp [h]

end SmartNixieTube

/-- The tube's command string is exactly the spec's fragment with the
`'$'` prefix. -/
theorem generate_eq_dollar_specFragment (t : SmartNixieTube) :
    t.generate_command_string = "$" ++ specFragment t := by
  simp [SmartNixieTube.generate_command_string, specFragment, String.append_assoc]

/-- Appending one more tube on the right of the spec-side frame body. -/
theorem specFrameBody_append (l : List SmartNixieTube) (t : SmartNixieTube) :
    specFrameBody (l ++ [t]) = specFrameBody l ++ ("$" ++ specFragment t) := by
  induction l with
  | nil => simp [specFrameBody, String.append_empty, String.empty_append]
  | cons u us ih =>
    rw [List.cons_append]
    simp only [specFrameBody]
    rw [ih]
    simp [String.append_assoc]

/-- The source's prepending fold equals the spec-side body of the
reversed tube list, followed by the accumulator. -/
theorem foldl_prepend_eq (ts : List SmartNixieTube) : ∀ acc : String,
    ts.foldl (fun command_string tube =>
      tube.generate_command_string ++ command_string) acc =
      specFrameBody ts.reverse ++ acc := by
  induction ts with
  | nil => intro acc; simp [specFrameBody, String.empty_append]
  | cons t ts ih =>
    intro acc
    rw [List.foldl_cons, ih, List.reverse_cons, specFrameBody_append,
      generate_eq_dollar_specFragment]
    simp [String.append_assoc]

/-- C1: for every display with at least one tube, the encoded frame is
exactly the `'$'`-prefixed fragments of the tubes in reverse order of
the owned sequence, with no separator, terminated by a single `'!'`. -/
theorem C1_encode_frame_reverse_order (d : SmartNixieTubeDisplay)
    (h : 1 ≤ d.tubes.length) :
    d.generate_command_string = specFrameBody d.tubes.reverse ++ "!" := by
  rw [SmartNixieTubeDisplay.generate_command_string, foldl_prepend_eq,
    String.append_empty]

/-- C1 witness: the 2-tube example display of spec section 6. -/
theorem C1_encode_frame_reverse_order_witness :
    1 ≤ sampleDisplay2.tubes.length ∧
      sampleDisplay2.generate_command_string =
        specFrameBody sampleDisplay2.tubes.reverse ++ "!" :=
  ⟨by decide, C1_encode_frame_reverse_order sampleDisplay2 (by decide)⟩

/-- C2 counterexample: the per-unit encoder of the source emits the
leading `'$'` itself, so after `turn_off` it returns
`"$-,N,N,000,000,000,000"`, not the claimed `"-,N,N,000,000,000,000"`. -/
theorem C2_fragment_counterexample :
    (blankTube.turn_off).generate_command_string = "$-,N,N,000,000,000,000" ∧
      (blankTube.turn_off).generate_command_string ≠ "-,N,N,000,000,000,000" := by
  constructor
  · rfl
  · decide

/-- C2 amended: the per-unit encoder returns the 7-field comma-separated
fragment prefixed by the `'$'` it emits itself (the display adds only
the trailing `'!'`); `turn_off` followed by encoding yields exactly
`"$-,N,N,000,000,000,000"`. -/
theorem C2_fragment_amended (t : SmartNixieTube) :
    t.generate_command_string = "$" ++ specFragment t ∧
      specFragment t =
        t.digit ++ "," ++
        SmartNixieTube.convert_from_bool_to_yn t.left_decimal_point ++ "," ++
        SmartNixieTube.convert_from_bool_to_yn t.right_decimal_point ++ "," ++
        SmartNixieTube.convert_digit_to_string_with_leading_zeros t.brightness ++ "," ++
        SmartNixieTube.convert_digit_to_string_with_leading_zeros t.red ++ "," ++
        SmartNixieTube.convert_digit_to_string_with_leading_zeros t.green ++ "," ++
        SmartNixieTube.convert_digit_to_string_with_leading_zeros t.blue ∧
      (t.turn_off).generate_command_string = "$-,N,N,000,000,000,000" :=
  ⟨generate_eq_dollar_specFragment t, rfl, rfl⟩

/-- C3 counterexample: on a display whose port is closed, `send_command`
returns normally with nothing written — the result is a success carrying
no written bytes, not a raised `TransportUnavailable`. -/
theorem C3_send_closed_counterexample :
    sampleDisplay.send_command false none = Except.ok none ∧
      (sampleDisplay.send_command false none).isOk = true :=
  ⟨rfl, rfl⟩

/-- C3 amended: `send_command` on a closed transport performs no write
and returns without raising; the `isOpen` guard simply skips the body,
so no error of any kind is reported. -/
theorem C3_send_closed_amended (d : SmartNixieTubeDisplay)
    (writeFailure : Option String) :
    d.send_command false writeFailure = Except.ok none := rfl

/-- C6: each display-level bulk setter, on an in-range value, stores the
display value and overwrites the corresponding field of every owned
tube; on an out-of-range value it fails with the field's `ValueError`
(the spec's `OutOfRange`). -/
theorem C6_bulk_setters (d : SmartNixieTubeDisplay) (v : Int) :
    ((0 ≤ v ∧ v ≤ 255) →
      (∃ d', d.set_brightness v = .ok d' ∧ d'.brightness = v ∧
        ∀ t ∈ d'.tubes, t.brightness = v) ∧
      (∃ d', d.set_red v = .ok d' ∧ d'.red = v ∧ ∀ t ∈ d'.tubes, t.red = v) ∧
      (∃ d', d.set_green v = .ok d' ∧ d'.green = v ∧ ∀ t ∈ d'.tubes, t.green = v) ∧
      (∃ d', d.set_blue v = .ok d' ∧ d'.blue = v ∧ ∀ t ∈ d'.tubes, t.blue = v)) ∧
    ((v < 0 ∨ 255 < v) →
      d.set_brightness v = .error (.valueError "Brightness must be between 0-255") ∧
      d.set_red v = .error (.valueError "Red must be between 0-255") ∧
      d.set_green v = .error (.valueError "Green must be between 0-255") ∧
      d.set_blue v = .error (.valueError "Blue must be between 0-255")) := by
  constructor
  · intro hv
    refine ⟨?_, ?_, ?_, ?_⟩
    · refine ⟨{ d with brightness := v, tubes := d.tubes.map fun t => { t with brightness := v } }, ?_, rfl, ?_⟩
      · unfold SmartNixieTubeDisplay.set_brightness; rw [if_neg (by omega)]
      · intro t ht
        rcases List.mem_map.mp ht with ⟨u, -, rfl⟩
        rfl
    · refine ⟨{ d with red := v, tubes := d.tubes.map fun t => { t with red := v } }, ?_, rfl, ?_⟩
      · unfold SmartNixieTubeDisplay.set_red; rw [if_neg (by omega)]
      · intro t ht
        rcases List.mem_map.mp ht with ⟨u, -, rfl⟩
        rfl
    · refine ⟨{ d with green := v, tubes := d.tubes.map fun t => { t with green := v } }, ?_, rfl, ?_⟩
      · unfold SmartNixieTubeDisplay.set_green; rw [if_neg (by omega)]
      · intro t ht
        rcases List.mem_map.mp ht with ⟨u, -, rfl⟩
        rfl
    · refine ⟨{ d with blue := v, tubes := d.tubes.map fun t => { t with blue := v } }, ?_, rfl, ?_⟩
      · unfold SmartNixieTubeDisplay.set_blue; rw [if_neg (by omega)]
      · intro t ht
        rcases List.mem_map.mp ht with ⟨u, -, rfl⟩
        rfl
  · intro hv
    refine ⟨?_, ?_, ?_, ?_⟩
    · unfold SmartNixieTubeDisplay.set_brightness; rw [if_pos (by omega)]
    · unfold SmartNixieTubeDisplay.set_red; rw [if_pos (by omega)]
    · unfold SmartNixieTubeDisplay.set_green; rw [if_pos (by omega)]
    · unfold SmartNixieTubeDisplay.set_blue; rw [if_pos (by omega)]

/-- C6 witness: brightness 7 on the 3-tube blank display. -/
theorem C6_bulk_setters_witness :
    ((0 : Int) ≤ 7 ∧ (7 : Int) ≤ 255) ∧
      ∃ d', sampleDisplay.set_brightness 7 = .ok d' ∧ d'.brightness = 7 ∧
        ∀ t ∈ d'.tubes, t.brightness = 7 :=
  ⟨⟨by decide, by decide⟩,
    ((C6_bulk_setters sampleDisplay 7).1 ⟨by decide, by decide⟩).1⟩

/-- C7: `reset` blanks every tube's digit and zeroes its brightness and
RGB while preserving both decimal-point flags, tube by tube. -/
theorem C7_reset_preserves_decimal_points (d : SmartNixieTubeDisplay) :
    (d.reset).tubes.length = d.tubes.length ∧
    ∀ (i : Nat) (hi : i < d.tubes.length) (hi' : i < (d.reset).tubes.length),
      ((d.reset).tubes.get ⟨i, hi'⟩).digit = "-" ∧
      ((d.reset).tubes.get ⟨i, hi'⟩).brightness = 0 ∧
      ((d.reset).tubes.get ⟨i, hi'⟩).red = 0 ∧
      ((d.reset).tubes.get ⟨i, hi'⟩).green = 0 ∧
      ((d.reset).tubes.get ⟨i, hi'⟩).blue = 0 ∧
      ((d.reset).tubes.get ⟨i, hi'⟩).left_decimal_point =
        (d.tubes.get ⟨i, hi⟩).left_decimal_point ∧
      ((d.reset).tubes.get ⟨i, hi'⟩).right_decimal_point =
        (d.tubes.get ⟨i, hi⟩).right_decimal_point := by
  refine ⟨by simp [SmartNixieTubeDisplay.reset], ?_⟩
  intro i hi hi'
  have hget : (d.reset).tubes.get ⟨i, hi'⟩ = resetTube (d.tubes.get ⟨i, hi⟩) := by
    simp [SmartNixieTubeDisplay.reset, List.get_map]
  rw [hget]
  exact ⟨rfl, rfl, rfl, rfl, rfl, rfl, rfl⟩

/-- C7 witness: the 1-tube display whose tube has its left decimal
point lit keeps that flag across `reset` while the digit and colours
clear. -/
theorem C7_reset_preserves_decimal_points_witness :
    0 < dottedDisplay.tubes.length ∧ 0 < (dottedDisplay.reset).tubes.length ∧
      ((dottedDisplay.reset).tubes.get ⟨0, by decide⟩).digit = "-" ∧
      ((dottedDisplay.reset).tubes.get ⟨0, by decide⟩).left_decimal_point =
        (dottedDisplay.tubes.get ⟨0, by decide⟩).left_decimal_point := by
  have h := (C7_reset_preserves_decimal_points dottedDisplay).2 0 (by decide) (by decide)
  exact ⟨by decide, by decide, h.1, h.2.2.2.2.2.1⟩

/-- C8: setting a tube's digit to any single character never raises;
characters of `'-0123456789'` are stored as given, every other single
character is silently replaced by `'-'`.  (The setter is modelled as a
total function: the source has no raising path.) -/
theorem C8_digit_setter_single_char (t : SmartNixieTube) (c : Char) :
    (t.set_digit (String.singleton c)).digit =
      if c ∈ digitAlphabet.data then String.singleton c else "-" := by
  rw [SmartNixieTube.set_digit_digit]
  have hs : (String.singleton c).data = [c] := rfl
  rw [hs]
  by_cases h : c ∈ digitAlphabet.data
  · rw [if_pos h, if_pos ((occursIn_singleton c _).mpr h)]
  · rw [if_neg h, if_neg]
    intro hocc
    exact h ((occursIn_singleton c _).mp hocc)

/-- C9 counterexample: the two-character string `"01"` is a contiguous
substring of `'-0123456789'`, so the public digit setter stores it
verbatim; the reachable tube `blankTube.set_digit "01"` has a digit
that is not one of the single characters `'0'`-`'9'` or `'-'`. -/
theorem C9_invariant_counterexample :
    ReachableTube (blankTube.set_digit "01") ∧
      (blankTube.set_digit "01").digit = "01" ∧
      ((blankTube.set_digit "01").digit).length = 2 :=
  ⟨ReachableTube.set_digit ReachableTube.init "01", by decide, by decide⟩

/-- C9 amended: every tube reachable through the public interface keeps
brightness, red, green and blue in `0..255` (the decimal points are
booleans by typing), and its digit is always a contiguous substring of
`'-0123456789'` — hence a single-character digit is one of `'0'`-`'9'`
or `'-'`, but multi-character and empty substrings are also reachable. -/
theorem C9_invariant_amended : ∀ t, ReachableTube t → TubeInv t := by
  intro t h
  induction h with
  | init =>
    exact ⟨by decide, by decide, by decide, by decide, by decide, by decide,
      by decide, by decide, by decide⟩
  | set_digit h value ih =>
    obtain ⟨-, -, hb, hr, hg, hbl⟩ := SmartNixieTube.set_digit_rest _ value
    refine ⟨?_, ?_, ?_, ?_, ?_, ?_, ?_, ?_, ?_⟩
    · rw [SmartNixieTube.set_digit_digit]
      by_cases hocc : occursIn value.data digitAlphabet.data
      · rwa [if_pos hocc]
      · rw [if_neg hocc]; decide
    · rw [hb]; exact ih.brightness_lb
    · rw [hb]; exact ih.brightness_ub
    · rw [hr]; exact ih.red_lb
    · rw [hr]; exact ih.red_ub
    · rw [hg]; exact ih.green_lb
    · rw [hg]; exact ih.green_ub
    · rw [hbl]; exact ih.blue_lb
    · rw [hbl]; exact ih.blue_ub
  | set_ldp h value ih =>
    exact ⟨ih.digit_sub, ih.brightness_lb, ih.brightness_ub, ih.red_lb, ih.red_ub,
      ih.green_lb, ih.green_ub, ih.blue_lb, ih.blue_ub⟩
  | set_rdp h value ih =>
    exact ⟨ih.digit_sub, ih.brightness_lb, ih.brightness_ub, ih.red_lb, ih.red_ub,
      ih.green_lb, ih.green_ub, ih.blue_lb, ih.blue_ub⟩
  | set_brightness h value hv ih =>
    unfold SmartNixieTube.set_brightness at hv
    by_cases hc : value < 0 ∨ value > 255
    · rw [if_pos hc] at hv; cases hv
    · rw [if_neg hc] at hv
      cases hv
      exact ⟨ih.digit_sub, show (0 : Int) ≤ value by omega,
        show value ≤ (255 : Int) by omega, ih.red_lb, ih.red_ub,
        ih.green_lb, ih.green_ub, ih.blue_lb, ih.blue_ub⟩
  | set_red h value hv ih =>
    unfold SmartNixieTube.set_red at hv
    by_cases hc : value < 0 ∨ value > 255
    · rw [if_pos hc] at hv; cases hv
    · rw [if_neg hc] at hv
      cases hv
      exact ⟨ih.digit_sub, ih.brightness_lb, ih.brightness_ub,
        show (0 : Int) ≤ value by omega, show value ≤ (255 : Int) by omega,
        ih.green_lb, ih.green_ub, ih.blue_lb, ih.blue_ub⟩
  | set_green h value hv ih =>
    unfold SmartNixieTube.set_green at hv
    by_cases hc : value < 0 ∨ value > 255
    · rw [if_pos hc] at hv; cases hv
    · rw [if_neg hc] at hv
      cases hv
      exact ⟨ih.digit_sub, ih.brightness_lb, ih.brightness_ub, ih.red_lb, ih.red_ub,
        show (0 : Int) ≤ value by omega, show value ≤ (255 : Int) by omega,
        ih.blue_lb, ih.blue_ub⟩
  | set_blue h value hv ih =>
    unfold SmartNixieTube.set_blue at hv
    by_cases hc : value < 0 ∨ value > 255
    · rw [if_pos hc] at hv; cases hv
    · rw [if_neg hc] at hv
      cases hv
      exact ⟨ih.digit_sub, ih.brightness_lb, ih.brightness_ub, ih.red_lb, ih.red_ub,
        ih.green_lb, ih.green_ub, show (0 : Int) ≤ value by omega,
        show value ≤ (255 : Int) by omega⟩
  | turn_off h ih =>
    exact show TubeInv blankTube from
      ⟨by decide, by decide, by decide, by decide, by decide, by decide,
        by decide, by decide, by decide⟩

/-- C9 amended witness: the tube reached by one digit assignment
satisfies the amended invariant. -/
theorem C9_invariant_amended_witness :
    ReachableTube (blankTube.set_digit "5") ∧ TubeInv (blankTube.set_digit "5") :=
  ⟨ReachableTube.set_digit ReachableTube.init "5",
    C9_invariant_amended _ (ReachableTube.set_digit ReachableTube.init "5")⟩

/-- The per-tube effect of `SmartNixieTubeDisplay.reset` stays inside
the reachable tube states (it is the digit setter followed by the four
in-range colour setters). -/
theorem resetTube_reachable {t : SmartNixieTube} (h : ReachableTube t) :
    ReachableTube (resetTube t) := by
  have h1 := ReachableTube.set_digit h "-"
  have h2 := ReachableTube.set_brightness h1 0 rfl
  have h3 := ReachableTube.set_red h2 0 rfl
  have h4 := ReachableTube.set_green h3 0 rfl
  exact ReachableTube.set_blue h4 0 rfl

/-- The per-tube effect of a display-level bulk brightness write on an
in-range value stays inside the reachable tube states. -/
theorem bulk_brightness_reachable {t : SmartNixieTube} (h : ReachableTube t)
    (v : Int) (h0 : 0 ≤ v) (h255 : v ≤ 255) :
    ReachableTube { t with brightness := v } := by
  refine ReachableTube.set_brightness h v ?_
  unfold SmartNixieTube.set_brightness
  rw [if_neg (by omega)]

/-- C10: the digit setter's validity test is a contiguous-substring
test, so any string occurring contiguously in `'-0123456789'`
(including multi-character runs like `"01"` and the empty string) is
stored verbatim, and exactly the non-substrings are coerced to `'-'`. -/
theorem C10_digit_substring (t : SmartNixieTube) (value : String) :
    ((∃ l r, l ++ value.data ++ r = digitAlphabet.data) →
      (t.set_digit value).digit = value) ∧
    (¬ (∃ l r, l ++ value.data ++ r = digitAlphabet.data) →
      (t.set_digit value).digit = "-") := by
  constructor
  · rintro ⟨l, r, hr⟩
    rw [SmartNixieTube.set_digit_digit, if_pos]
    exact (occursIn_iff value.data digitAlphabet.data).mpr ⟨l, r, hr.symm⟩
  · intro hne
    rw [SmartNixieTube.set_digit_digit, if_neg]
    intro hocc
    obtain ⟨l, r, hr⟩ := (occursIn_iff _ _).mp hocc
    exact hne ⟨l, r, hr.symm⟩

/-- C10 witness: `"01"` is stored verbatim; `"@@"` is not a substring
and is coerced to `'-'`. -/
theorem C10_digit_substring_witness :
    (∃ l r, l ++ ("01" : String).data ++ r = digitAlphabet.data) ∧
      (blankTube.set_digit "01").digit = "01" ∧
      ¬ (∃ l r, l ++ ("@@" : String).data ++ r = digitAlphabet.data) ∧
      (blankTube.set_digit "@@").digit = "-" := by
  have h1 : ∃ l r, l ++ ("01" : String).data ++ r = digitAlphabet.data :=
    ⟨['-'], ['2', '3', '4', '5', '6', '7', '8', '9'], by decide⟩
  have h2 : ¬ ∃ l r, l ++ ("@@" : String).data ++ r = digitAlphabet.data := by
    rintro ⟨l, r, hr⟩
    have hocc := (occursIn_iff ("@@" : String).data digitAlphabet.data).mpr
      ⟨l, r, hr.symm⟩
    exact absurd hocc (by decide)
  exact ⟨h1, (C10_digit_substring blankTube "01").1 h1, h2,
    (C10_digit_substring blankTube "@@").2 h2⟩
example : specFragment blankTube = "-,N,N,000,000,000,000" := by decide
example : pyStr 0 = "0" := by decide
example : pyStr 42 = "42" := by decide
example : zfill (pyStr 42) 3 = "042" := by decide
example : sampleDisplay2.generate_command_string =
    "$-,N,N,000,000,000,000$5,N,N,128,000,000,255!" := by decide
